import Mathlib

/-!
Verification model of the k8s backup operator.

Shallow embedding of the reconciliation core of the `backup_operator`
package: the phase mapping, the Commvault job-status value object, the
status merge-patch, the per-cluster concurrency guard, the monitoring
(polling) loop with cancellation, the zalando in-place restore
provisioning sequence, and the finalization workflow.  Each definition
mirrors its Python source function; collaborator calls (Kubernetes API,
Commvault SDK) are parameterized by their outcomes.

Python string primitives are modelled over the character list of a
`String`, so that all definitions evaluate by kernel reduction.
-/

/-- Python `str.lower` on one character (ASCII, as used by the status
strings handled here). -/
def pyLowerChar (c : Char) : Char := c.toLower

/-- Python `str.lower`. -/
def pyLower (s : String) : String := String.mk (s.data.map pyLowerChar)

/-- Python `str.strip()`: drop whitespace from both ends. -/
def pyStrip (s : String) : String :=
  String.mk (((s.data.dropWhile Char.isWhitespace).reverse.dropWhile Char.isWhitespace).reverse)

/-- Python `s.startswith(pre)`. -/
def pyStartsWith (s pre : String) : Bool := pre.data.isPrefixOf s.data

/-- Mirrors `backup_operator.map_phase_from_status`.  The input is the raw
value handed to the Python function: `none` models Python `None`, and an
empty string is falsy in Python (`not status`).  Note the `"Unknown"`
comparison happens before stripping and is case sensitive, exactly as in
the source (`str(status) == "Unknown"`). -/
def map_phase_from_status (status : Option String) : String :=
  match status with
  | none => "Pending"
  | some s =>
    if s = "" then "Pending"
    else if s = "Unknown" then "Pending"
    else
      let low := pyLower (pyStrip s)
      if pyStartsWith low "completed" then "Succeeded"
      else if low = "failed" ∨ low = "killed" then "Failed"
      else if low = "waiting" ∨ low = "pending" then "Pending"
      else "Running"

/-- Mirrors `commvault_api.CommvaultJobStatus`: a value object wrapping the
raw vendor status string. -/
structure CommvaultJobStatus where
  raw : String
deriving DecidableEq, Repr

/-- Mirrors `CommvaultJobStatus.__init__`: a falsy status (`None` or the
empty string) is normalized to `"Unknown"`. -/
def CommvaultJobStatus.ofRaw (s : Option String) : CommvaultJobStatus :=
  match s with
  | none => ⟨"Unknown"⟩
  | some t => if t = "" then ⟨"Unknown"⟩ else ⟨t⟩

/-- Mirrors `CommvaultJobStatus.lower`. -/
def CommvaultJobStatus.lower (c : CommvaultJobStatus) : String :=
  pyLower c.raw

/-- Mirrors `CommvaultJobStatus.is_unknown`. -/
def CommvaultJobStatus.is_unknown (c : CommvaultJobStatus) : Bool :=
  c.raw == "Unknown"

/-- Mirrors `CommvaultJobStatus.is_terminal`: prefix `completed` on the
lowercased string, or the exact (case sensitive) strings `Failed` /
`Killed`. -/
def CommvaultJobStatus.is_terminal (c : CommvaultJobStatus) : Bool :=
  pyStartsWith c.lower "completed" || (c.raw == "Failed" || c.raw == "Killed")

/-- Mirrors `CommvaultJobStatus.is_success`. -/
def CommvaultJobStatus.is_success (c : CommvaultJobStatus) : Bool :=
  pyStartsWith c.lower "completed"

/-- Phase computed for a polled status object inside the daemon loop
(`main.wait_and_cleanup`, `phase = map_phase_from_status(status)`).
A `CommvaultJobStatus` object is always truthy in Python and
`str(status)` returns the wrapped raw string (never empty after
normalization), so the call reduces to the raw-string application. -/
def pollPhase (c : CommvaultJobStatus) : String :=
  map_phase_from_status (some c.raw)

/-- Phase computed at admission (`BackupOperator.run`,
`phase = map_phase_from_status(initial_status)`), same reduction. -/
def admission_initial_phase (c : CommvaultJobStatus) : String :=
  map_phase_from_status (some c.raw)

/-- Association lookup modelling a Python dict of status fields
(the keyword arguments of `K8sBackupApi.patch_status`); keyword argument
keys are distinct by construction. -/
def lookupField (k : String) : List (String × String) → Option String
  | [] => none
  | p :: rest => if p.1 = k then some p.2 else lookupField k rest

/-- Mirrors the effect of one `K8sBackupApi.patch_status` call on the CR
status map: the current status is read, copied and updated with the given
fields (`merged = current.copy(); merged.update(fields)`), and the merged
dict is written to the status subresource, so a field named in the patch
takes the patch value and every other field keeps its current value. -/
def patch_status (st : String → Option String) (fields : List (String × String)) :
    String → Option String :=
  fun k =>
    match lookupField k fields with
    | some v => some v
    | none => st k

/-- An empty CR status, for concrete patch scenarios. -/
def stEmpty : String → Option String := fun _ => none

/-- Concrete first patch: the fields written on a status change. -/
def c8patch1 : List (String × String) := [("phase", "Running"), ("jobId", "J1")]

/-- Concrete second patch: the field written at finalization. -/
def c8patch2 : List (String × String) := [("finishedAt", "2024-01-01T00:00:00Z")]

/-- One PostgresBackup CR row as seen by the concurrency guard
(`K8sBackupApi.another_operation_in_progress`): metadata name and
deletionTimestamp, `spec.cluster` and `status.phase` (defaulting to the
empty string, as `st.get("phase", "")` does). -/
structure CRItem where
  name : String
  deletionTs : Option String := none
  cluster : Option String := none
  phase : String := ""
deriving DecidableEq, Repr

/-- The terminal phases skipped by the guard. -/
def terminal_phase (p : String) : Bool :=
  p == "Succeeded" || p == "Failed" || p == "Rejected"

/-- The scan loop inside `another_operation_in_progress`: the first listed
CR that is not the current one, is not being deleted, targets the same
cluster and is not in a terminal phase is reported as the conflict. -/
def findConflict (cluster_name : Option String) (current_name : String) :
    List CRItem → Bool × Option String
  | [] => (false, none)
  | it :: rest =>
    if it.name = current_name then findConflict cluster_name current_name rest
    else if it.deletionTs.isSome then findConflict cluster_name current_name rest
    else if ¬(it.cluster = cluster_name) then findConflict cluster_name current_name rest
    else if terminal_phase it.phase then findConflict cluster_name current_name rest
    else (true, some it.name)

/-- Mirrors `K8sBackupApi.another_operation_in_progress`: an `ApiException`
while listing the CRs degrades to `(False, None)`, i.e. no conflict. -/
def another_operation_in_progress (listRes : Except Unit (List CRItem))
    (cluster_name : Option String) (current_name : String) : Bool × Option String :=
  match listRes with
  | Except.error _ => (false, none)
  | Except.ok items => findConflict cluster_name current_name items

/-- The externally visible actions of the guard section of
`BackupOperator.run`, each tagged with the name of the CR it touches. -/
inductive K8sAction
  | patchStatusOf (name : String) (fields : List (String × String))
  | deleteCROf (name : String)
  | proceedWith (name : String)
deriving DecidableEq, Repr

/-- The CR a guard action is addressed to. -/
def K8sAction.target : K8sAction → String
  | K8sAction.patchStatusOf n _ => n
  | K8sAction.deleteCROf n => n
  | K8sAction.proceedWith n => n

/-- Mirrors the guard block at the top of `BackupOperator.run`: on a
conflict the current CR is patched to phase `Rejected` with reason
`ConcurrentOperation` and then deleted, and the handler returns; otherwise
admission proceeds.  (The free-text `message` field of the patch is
elided.) -/
def run_guard (listRes : Except Unit (List CRItem)) (cluster_name : Option String)
    (current_name : String) : List K8sAction :=
  match another_operation_in_progress listRes cluster_name current_name with
  | (true, _) =>
    [K8sAction.patchStatusOf current_name
        [("phase", "Rejected"), ("reason", "ConcurrentOperation")],
      K8sAction.deleteCROf current_name]
  | (false, _) => [K8sAction.proceedWith current_name]

/-- A concrete pre-existing Operation for guard scenarios. -/
def crA : CRItem :=
  { name := "op-a", deletionTs := none, cluster := some "pg1", phase := "Running" }

/-- Mirrors the polling loop of `main.wait_and_cleanup` over a finite
sequence of polled statuses.  `last` is the value last compared against
(initially `status.commvaultStatus` from the CR body, possibly absent; a
`CommvaultJobStatus` compares equal to a raw string iff the wrapped string
equals it, and never equal to `None`).  On a change the pair
`(str(status), map_phase_from_status(status))` is merge-patched
immediately; the loop breaks at the first terminal status; an exhausted
sequence models the 3600 s budget running out.  Returns the change patches
in order and the final `status` value (the last polled object; `none` only
for the empty sequence, which the positive time budget makes unreachable). -/
def pollSteps (last : Option String) : List CommvaultJobStatus →
    List (String × String) × Option CommvaultJobStatus
  | [] => ([], none)
  | c :: rest =>
    let patch : List (String × String) :=
      if last = some c.raw then [] else [(c.raw, pollPhase c)]
    if c.is_terminal then (patch, some c)
    else
      match pollSteps (some c.raw) rest with
      | (ps, none) => (patch ++ ps, some c)
      | (ps, some f) => (patch ++ ps, some f)

/-- The prefix of a poll sequence the loop actually observes: everything
up to and including the first terminal status. -/
def processedPolls : List CommvaultJobStatus → List CommvaultJobStatus
  | [] => []
  | c :: rest => if c.is_terminal then [c] else c :: processedPolls rest

/-- The status-change patches the spec demands over an observed sequence:
one `(raw status, mapped phase)` record exactly at each point where the
observed raw status differs from the previously seen value. -/
def changePatchList (last : Option String) : List CommvaultJobStatus →
    List (String × String)
  | [] => []
  | c :: rest =>
    if last = some c.raw then changePatchList last rest
    else (c.raw, pollPhase c) :: changePatchList (some c.raw) rest

/-- The last observed status of a poll sequence (the normalized unknown
status stands in for the empty sequence, which the daemon cannot produce
since the time budget admits at least one poll). -/
def lastObserved (seq : List CommvaultJobStatus) : CommvaultJobStatus :=
  (processedPolls seq).getLast?.getD (CommvaultJobStatus.ofRaw none)

/-- The observable outcome of one daemon pass (`main.wait_and_cleanup`):
the change patches made during the loop, the single final status patch
`{phase, commvaultStatus, finishedAt}` — represented by its phase and
commvaultStatus fields, `finishedAt` being a wall-clock timestamp — and
whether the CR was deleted (`delete_cr` runs iff `status.is_success`). -/
structure DaemonResult where
  changes : List (String × String)
  finalPhase : String
  finalCvStatus : String
  deleted : Bool
deriving DecidableEq, Repr

/-- Mirrors `main.wait_and_cleanup` (without external cancellation): run
the polling loop, then compute `phase = "Succeeded" if status.is_success
else "Failed"`, persist the final patch once, and delete the CR on
success. -/
def wait_and_cleanup (initial : Option String) (seq : List CommvaultJobStatus) :
    Option DaemonResult :=
  match pollSteps initial seq with
  | (_, none) => none
  | (ps, some f) =>
    some ⟨ps, if f.is_success then "Succeeded" else "Failed", f.raw, f.is_success⟩

/-- Spec scenario: poll sequence `["Running", "Running", "Completed w/ errors"]`. -/
def seqScenarioA : List CommvaultJobStatus :=
  [CommvaultJobStatus.ofRaw (some "Running"), CommvaultJobStatus.ofRaw (some "Running"),
    CommvaultJobStatus.ofRaw (some "Completed w/ errors")]

/-- Spec scenario: `["Failed"]` on the first poll. -/
def seqScenarioB : List CommvaultJobStatus := [CommvaultJobStatus.ofRaw (some "Failed")]

/-- How the cancellation-aware daemon loop ended: the external stop signal
was observed at the check of iteration `i`, a terminal status broke the
loop at poll `i`, or the time budget ran out. -/
inductive LoopExit
  | cancelled (i : Nat)
  | terminal (i : Nat)
  | timeout
deriving DecidableEq, Repr

/-- Mirrors the polling loop of `main.wait_and_cleanup` with its
cancellation check.  Iteration `i` first evaluates `stopped` (the kopf
stop signal, modelled as a time-indexed flag; the single check sits at the
loop head, before the poll and before that iteration's sleep) and returns
immediately when set — skipping every later patch including the final
status patch; otherwise it polls `seq i`, patches on change, breaks on a
terminal status, sleeps one interval and continues.  `fuel` is the number
of polls the 3600 s budget admits. -/
def loopWithStop (stopped : Nat → Bool) (seq : Nat → CommvaultJobStatus) :
    Nat → Nat → Option String → List (String × String) × LoopExit
  | 0, _, _ => ([], LoopExit.timeout)
  | Nat.succ fuel, i, last =>
    if stopped i then ([], LoopExit.cancelled i)
    else
      let c := seq i
      let patch : List (String × String) :=
        if last = some c.raw then [] else [(c.raw, pollPhase c)]
      if c.is_terminal then (patch, LoopExit.terminal i)
      else
        let r := loopWithStop stopped seq fuel (i + 1) (some c.raw)
        (patch ++ r.1, r.2)

/-- The never-set stop signal. -/
def noStop : Nat → Bool := fun _ => false

/-- A stop signal raised from the third interval on. -/
def stopAt3 : Nat → Bool := fun i => Nat.ble 3 i

/-- A constant `"Running"` poll stream. -/
def seqRunning : Nat → CommvaultJobStatus :=
  fun _ => CommvaultJobStatus.ofRaw (some "Running")

/-- Outcome of a Kubernetes create call: created, HTTP 409 `already
exists`, or any other API error. -/
inductive CreateRes
  | ok
  | conflict
  | otherError
deriving DecidableEq, Repr

/-- How a provisioning step signals failure to kopf: a retryable
`TemporaryError`, or an exception re-raised as is. -/
inductive KopfSignal
  | temporaryErr
  | reraised
deriving DecidableEq, Repr

/-- Mirrors the snapshot-create handler in
`BackupOperationStrategy._create_target_pvc`: 409 is logged and treated as
success; any other error becomes a retryable `TemporaryError`. -/
def backup_snapshot_create (r : CreateRes) : Except KopfSignal Unit :=
  match r with
  | CreateRes.ok => Except.ok ()
  | CreateRes.conflict => Except.ok ()
  | CreateRes.otherError => Except.error KopfSignal.temporaryErr

/-- Mirrors the clone-PVC-create handler in
`BackupOperationStrategy._create_target_pvc`: 409 is logged and treated as
success; any other error becomes a retryable `TemporaryError`. -/
def backup_clone_pvc_create (r : CreateRes) : Except KopfSignal Unit :=
  match r with
  | CreateRes.ok => Except.ok ()
  | CreateRes.conflict => Except.ok ()
  | CreateRes.otherError => Except.error KopfSignal.temporaryErr

/-- Mirrors the StatefulSet-create handler in
`OperationStrategy._create_helper_statefulset`: 409 is logged and treated
as success; any other error is re-raised. -/
def helper_statefulset_create (r : CreateRes) : Except KopfSignal Unit :=
  match r with
  | CreateRes.ok => Except.ok ()
  | CreateRes.conflict => Except.ok ()
  | CreateRes.otherError => Except.error KopfSignal.reraised

/-- Mirrors the PVC-create handler in
`RestoreOperationStrategy._create_target_pvc`: a 409 after
`wait_for_pvc_absent` means the old PVC is probably still terminating, so
it raises a retryable `TemporaryError` — it is NOT treated as success;
any other error also becomes a `TemporaryError`. -/
def restore_target_pvc_create (r : CreateRes) : Except KopfSignal Unit :=
  match r with
  | CreateRes.ok => Except.ok ()
  | CreateRes.conflict => Except.error KopfSignal.temporaryErr
  | CreateRes.otherError => Except.error KopfSignal.temporaryErr

/-- Result of reading the live cluster's StatefulSet during the
re-verification (`ZalandoOperationStrategy.ensure_cluster_quiesced`). -/
inductive StsRead
  | found (replicas : Nat)
  | notFound
  | apiError
deriving DecidableEq, Repr

/-- Provisioning-step events of `ZalandoOperationStrategy.execute` for an
in-place restore, in call order (no task-start event can occur here). -/
inductive ZStep
  | getPvcName
  | readSourcePvc
  | patchOriginalReplicas (n : Nat)
  | scaleClusterReplicas (n : Nat)
  | waitClusterPodsGone
  | deleteNumberedPvcs
  | waitPvcAbsent
  | createPvc
  | determinePostgresParams
  | createHelperSts
  | readStsReplicas
  | reverifyPodsGone
deriving DecidableEq, Repr

/-- Events of the surrounding `BackupOperator.run` segment: a provisioning
step, the vendor restore-task request, or the `Failed` status patch made
when `strategy.execute()` raises. -/
inductive ZEvent
  | step (s : ZStep)
  | startRestoreTask
  | patchPhaseFailed
deriving DecidableEq, Repr

/-- Collaborator outcomes for one zalando in-place restore execution:
the original replica count reported by `ZalandoApi.get_original_replicas`
(already clamped to at least 1 there), and the success of each external
call `execute()` makes, in call order. -/
structure ZEnv where
  origReplicas : Nat
  pvcNameOk : Bool
  readSrcOk : Bool
  scaleOk : Bool
  deletePvcsOk : Bool
  pvcAbsentOk : Bool
  createPvcRes : CreateRes
  createStsRes : CreateRes
  reverifySts : StsRead
  podsGone2Ok : Bool
deriving DecidableEq, Repr

/-- Mirrors `ZalandoOperationStrategy.execute` for an in-place restore
operation: resolve the source PVC name, read the source PVC, then
`scale_zalando_cluster_to_zero_replicas` (record the original replica
count via `patch_status`, scale the cluster CR and StatefulSet to 0 and
wait for the pods to be gone — both wrapped in a try/except that logs and
continues), `delete_all_sts_pvcs` (numbered volumes only), then
`RestoreOperationStrategy._create_target_pvc` under the original name
(`wait_for_pvc_absent`, then create, 409 raising a retryable error),
`_determine_postgres_params`, `_create_helper_statefulset` (409 is
success), and finally `ensure_cluster_quiesced` (read the StatefulSet:
404 counts as quiesced; nonzero replicas raise; at 0 replicas wait for
the pods to be gone).  Returns the emitted call trace and whether
`execute()` completed without raising. -/
def zalandoInPlaceExecute (e : ZEnv) : List ZStep × Bool :=
  if e.pvcNameOk = false then ([ZStep.getPvcName], false)
  else if e.readSrcOk = false then ([ZStep.getPvcName, ZStep.readSourcePvc], false)
  else
    let quiesce : List ZStep :=
      [ZStep.patchOriginalReplicas e.origReplicas, ZStep.scaleClusterReplicas 0] ++
        (if e.scaleOk then [ZStep.waitClusterPodsGone] else [])
    let pre := [ZStep.getPvcName, ZStep.readSourcePvc] ++ quiesce ++ [ZStep.deleteNumberedPvcs]
    if e.deletePvcsOk = false then (pre, false)
    else
      let pre2 := pre ++ [ZStep.waitPvcAbsent]
      if e.pvcAbsentOk = false then (pre2, false)
      else
        let pre3 := pre2 ++ [ZStep.createPvc]
        if ¬(e.createPvcRes = CreateRes.ok) then (pre3, false)
        else
          let pre4 := pre3 ++ [ZStep.determinePostgresParams, ZStep.createHelperSts]
          if e.createStsRes = CreateRes.otherError then (pre4, false)
          else
            match e.reverifySts with
            | StsRead.apiError => (pre4 ++ [ZStep.readStsReplicas], false)
            | StsRead.notFound => (pre4 ++ [ZStep.readStsReplicas], true)
            | StsRead.found r =>
              if r = 0 then
                (pre4 ++ [ZStep.readStsReplicas, ZStep.reverifyPodsGone], e.podsGone2Ok)
              else (pre4 ++ [ZStep.readStsReplicas], false)

/-- Mirrors the strategy segment of `BackupOperator.run` for an admitted
zalando in-place restore: `strategy.execute()`, then on success
`strategy.start_commvault_task()` (the vendor restore request); when
`execute()` raises, the status is patched to `Failed` /
`StrategyExecutionError` and the handler returns without starting any
task. -/
def zalandoInPlaceRun (e : ZEnv) : List ZEvent :=
  let r := zalandoInPlaceExecute e
  (r.1.map ZEvent.step) ++
    (if r.2 then [ZEvent.startRestoreTask] else [ZEvent.patchPhaseFailed])

/-- The fully successful collaborator environment. -/
def zenvOk : ZEnv :=
  { origReplicas := 3, pvcNameOk := true, readSrcOk := true, scaleOk := true,
    deletePvcsOk := true, pvcAbsentOk := true, createPvcRes := CreateRes.ok,
    createStsRes := CreateRes.ok, reverifySts := StsRead.found 0, podsGone2Ok := true }

/-- The same environment with a 409 on the restore target-PVC creation. -/
def zenvConflict : ZEnv := { zenvOk with createPvcRes := CreateRes.conflict }

/-- Mirrors `CommvaultApi.create_backup_task` /
`create_restore_task`: failures produce a typed `CommvaultApiException`,
and a falsy job response raises as well — a job id is returned exactly
when the subclient chain resolves and the SDK hands back a job object. -/
inductive CvFail
  | subclientMissing
  | emptyResponse
deriving DecidableEq, Repr

/-- The fallible vendor task-start call: `subclientFound` is whether the
`_get_subclient_and_instance` chain resolved, `jobRes` the job object the
SDK returned (`none` models a falsy response). -/
def create_task_model (subclientFound : Bool) (jobRes : Option String) :
    Except CvFail String :=
  if subclientFound = false then Except.error CvFail.subclientMissing
  else
    match jobRes with
    | some j => Except.ok j
    | none => Except.error CvFail.emptyResponse

/-- A Python value as stored in a CR status field. -/
inductive PyVal
  | vint (n : Int)
  | vstr (s : String)
deriving DecidableEq, Repr

/-- Python truthiness of an optional status value: `None`, `0` and the
empty string are falsy (`st_final.get("originalReplicas") or 1`). -/
def pyFalsy : Option PyVal → Bool
  | none => true
  | some (PyVal.vint n) => n == 0
  | some (PyVal.vstr s) => s == ""

/-- Digit-string parse for Python `int(...)`. -/
def pyParseDigits (cs : List Char) : Option Nat :=
  if cs ≠ [] ∧ cs.all Char.isDigit then
    some (cs.foldl (fun a c => a * 10 + (c.toNat - 48)) 0)
  else none

/-- Python `int(...)` on a string: strip, optional sign, digits — or a
`ValueError` (`none`). -/
def pyParseInt (s : String) : Option Int :=
  match (pyStrip s).data with
  | [] => none
  | c :: cs =>
    if c = '-' then (pyParseDigits cs).map (fun n => -(n : Int))
    else if c = '+' then (pyParseDigits cs).map (fun n => (n : Int))
    else (pyParseDigits (c :: cs)).map (fun n => (n : Int))

/-- The replica count recovered in `BackupOperator.finalize` before
clamping: `st_final.get("originalReplicas") or 1`, then a defensive
`int(...)` falling back to 1 on `TypeError`/`ValueError`. -/
def desired_replicas_parsed (raw : Option PyVal) : Int :=
  match (if pyFalsy raw then PyVal.vint 1 else raw.getD (PyVal.vint 1)) with
  | PyVal.vint n => n
  | PyVal.vstr s =>
    match pyParseInt s with
    | some n => n
    | none => 1

/-- Mirrors the replica-count recovery in `BackupOperator.finalize`: the
defensive parse followed by clamping to a minimum of 1. -/
def desired_replicas (raw : Option PyVal) : Int :=
  if desired_replicas_parsed raw < 1 then 1 else desired_replicas_parsed raw

/-- The externally visible calls of `BackupOperator.finalize`
(`patchStatusF` stands for any status write — finalize makes none). -/
inductive FEvent
  | scaleHelperSts (n : Nat)
  | waitHelperPodsGone
  | scaleCluster (n : Int)
  | waitPodReady
  | patronictlRemove
  | patchStatusF
deriving DecidableEq, Repr

/-- Collaborator outcomes inside `finalize`: whether scaling the helper
StatefulSet succeeded (its failure is swallowed by the inner try/except),
and whether scaling the cluster to 1 and waiting for pod-0 readiness
succeeded (their failures are swallowed by the outer try/except). -/
structure FEnv where
  helperScaleOk : Bool := true
  scaleCluster1Ok : Bool := true
  waitPodReadyOk : Bool := true
deriving DecidableEq, Repr

/-- The all-successful finalization environment. -/
def fenvOk : FEnv := {}

/-- Mirrors `BackupOperator.finalize`: the body runs only when the job
succeeded and the Operation is a zalando in-place restore; it stops the
helper StatefulSet and waits for its pods (errors ignored), starts the
real cluster with 1 replica, waits for pod-0 readiness, runs `patronictl
remove`, and scales back to the recorded replica count when it exceeds 1;
every failure is caught and logged, so the function always returns its
(possibly truncated) call trace and never raises, and it never writes the
Operation status. -/
def finalize (isSuccess : Bool) (operatorName : String) (inPlace : Bool)
    (origRaw : Option PyVal) (env : FEnv) : List FEvent :=
  if isSuccess && ((operatorName == "zalando") && inPlace) then
    let d := desired_replicas origRaw
    let tr0 : List FEvent :=
      if env.helperScaleOk then [FEvent.scaleHelperSts 0, FEvent.waitHelperPodsGone]
      else [FEvent.scaleHelperSts 0]
    let tr1 := tr0 ++ [FEvent.scaleCluster 1]
    if env.scaleCluster1Ok = false then tr1
    else
      let tr2 := tr1 ++ [FEvent.waitPodReady]
      if env.waitPodReadyOk = false then tr2
      else
        let tr3 := tr2 ++ [FEvent.patronictlRemove]
        if 1 < d then tr3 ++ [FEvent.scaleCluster d] else tr3
  else []

/-- The raw request fields of a PostgresBackup CR spec, each possibly
absent (`spec.get(...)`). -/
structure OperationSpec where
  cluster : Option String := none
  action : Option String := none
  operator : Option String := none
  restore_mode : Option String := none
  restore_date : Option String := none
deriving DecidableEq, Repr

/-- Python `spec.get(key, default) or default`: an absent or falsy value
falls back to the default. -/
def orDefault (v : Option String) (d : String) : String :=
  match v with
  | none => d
  | some s => if s = "" then d else s

/-- Mirrors `operation.Operation`. -/
structure Operation where
  name : String
  ns : String
  cluster : Option String
  action : String
  operator : String
  restore_mode : String
  restore_date : String
deriving DecidableEq, Repr

/-- Mirrors `Operation.__init__`: action defaults to `backup` and is
lowercased, an unsupported action is a construction-time `ValueError`;
operator defaults to `zalando`; the restore-only fields are blank unless
`action == "restore"`, with restore_mode defaulting to `out-of-place`. -/
def mkOperation (name ns : String) (spec : OperationSpec) : Except String Operation :=
  let action := pyLower (orDefault spec.action "backup")
  if ¬(action = "backup" ∨ action = "restore") then
    Except.error ("Unsupported action " ++ action)
  else
    Except.ok
      { name := name, ns := ns, cluster := spec.cluster, action := action,
        operator := pyLower (orDefault spec.operator "zalando"),
        restore_mode :=
          if action = "restore" then pyLower (orDefault spec.restore_mode "out-of-place")
          else "",
        restore_date := if action = "restore" then spec.restore_date.getD "" else "" }

/-- Mirrors `Operation.is_restore_in_place`. -/
def Operation.is_restore_in_place (op : Operation) : Bool :=
  (op.action == "restore") && (op.restore_mode == "in-place")

/-- The four strategy variants dispatched by
`operation_strategy.get_strategy`. -/
inductive StrategyKind
  | zalandoBackup
  | zalandoRestore
  | cnpgBackup
  | cnpgRestore
deriving DecidableEq, Repr

/-- Mirrors `operation_strategy.get_strategy`. -/
def get_strategy (op : Operation) : Except String StrategyKind :=
  if op.operator == "zalando" then
    if op.action == "restore" then Except.ok StrategyKind.zalandoRestore
    else Except.ok StrategyKind.zalandoBackup
  else if op.operator == "cnpg" then
    if op.action == "restore" then Except.ok StrategyKind.cnpgRestore
    else Except.ok StrategyKind.cnpgBackup
  else Except.error ("Unknown operator/action: " ++ op.operator ++ "/" ++ op.action)

/-- Target volume name chosen by
`BackupOperationStrategy._create_target_pvc`:
`pvc_name + "-clone-" + clone_id`. -/
def backup_clone_pvc_name (pvc_name clone_id : String) : String :=
  pvc_name ++ "-clone-" ++ clone_id

/-- Target volume name chosen by
`RestoreOperationStrategy._create_target_pvc`: the original name for an
in-place restore, otherwise `pvc_name + "-restore-" + clone_id`. -/
def restore_target_pvc_name (in_place : Bool) (pvc_name clone_id : String) : String :=
  if in_place then pvc_name else pvc_name ++ "-restore-" ++ clone_id

/-- The target volume name each strategy variant creates for a given
source volume: the backup mixins use the clone name, the restore mixins
(including `CNPGRestore`, which inherits
`RestoreOperationStrategy._create_target_pvc` unchanged) use the
restore-name rule. -/
def strategy_target_pvc_name (op : Operation) (k : StrategyKind)
    (pvc_name clone_id : String) : String :=
  match k with
  | StrategyKind.zalandoBackup => backup_clone_pvc_name pvc_name clone_id
  | StrategyKind.cnpgBackup => backup_clone_pvc_name pvc_name clone_id
  | StrategyKind.zalandoRestore =>
    restore_target_pvc_name op.is_restore_in_place pvc_name clone_id
  | StrategyKind.cnpgRestore =>
    restore_target_pvc_name op.is_restore_in_place pvc_name clone_id

/-- A CNPG restore request with `restore_mode: in-place` — nothing in the
code rejects this combination. -/
def c5spec : OperationSpec :=
  { cluster := some "c1", action := some "restore", operator := some "cnpg",
    restore_mode := some "in-place", restore_date := some "1700000000" }

/-- The target volume name the CNPG in-place restore would create for
source volume `pgdata-c1-1`. -/
def c5_target : Except String String :=
  (mkOperation "op1" "ns1" c5spec).bind fun op =>
    (get_strategy op).map fun k =>
      strategy_target_pvc_name op k "pgdata-c1-1" "20250101120000"

/-- A concrete CNPG out-of-place restore Operation (the value
`mkOperation` builds from the corresponding spec). -/
def c5op : Operation :=
  { name := "op2", ns := "ns1", cluster := some "c1", action := "restore",
    operator := "cnpg", restore_mode := "out-of-place", restore_date := "" }

/-! ## Theorems -/

/-- A successful field lookup exhibits a member of the field list. -/
theorem lookupField_mem {k v : String} {fs : List (String × String)}
    (h : lookupField k fs = some v) : (k, v) ∈ fs := by
  induction fs with
  | nil => simp [lookupField] at h
  | cons p rest ih =>
    cases p with
    | mk a b =>
      by_cases hk : a = k
      · simp only [lookupField, hk, if_true] at h
        cases h
        subst hk
        exact List.mem_cons_self _ _
      · simp only [lookupField, hk, if_false] at h
        exact List.mem_cons_of_mem _ (ih h)

/-- A key matching no field of the list looks up to `none`. -/
theorem lookupField_eq_none {k : String} {fs : List (String × String)}
    (h : ∀ p ∈ fs, p.1 ≠ k) : lookupField k fs = none := by
  induction fs with
  | nil => rfl
  | cons p rest ih =>
    have hp : p.1 ≠ k := h p (List.mem_cons_self p rest)
    simp only [lookupField, hp, if_false]
    exact ih (fun q hq => h q (List.mem_cons_of_mem _ hq))

/-- C2 counterexample: the claim reads the whole mapping table as case
insensitive, so it demands `"unknown"` (a casing variant of `"Unknown"`)
map to `Pending`; the code compares against `"Unknown"` case sensitively
and the lowercase variant falls through every other rule to `Running`. -/
theorem c2_phase_mapping_counterexample :
    map_phase_from_status (some "unknown") = "Running" ∧ "Running" ≠ "Pending" := by
  constructor
  · decide
  · decide

/-- C2 (amended): `map_phase_from_status` is a pure total function; it maps
an unset value (`None` or the empty string) and the exact, unstripped,
case-sensitive string `"Unknown"` to `Pending`; every other value is
stripped and lowercased and then mapped case-insensitively: prefix
`completed` to `Succeeded`, exactly `failed` or `killed` to `Failed`,
`waiting` or `pending` to `Pending`, everything else to `Running`; and the
identical function is applied at admission and at every poll. -/
theorem c2_phase_mapping_amended :
    map_phase_from_status none = "Pending" ∧
    map_phase_from_status (some "") = "Pending" ∧
    map_phase_from_status (some "Unknown") = "Pending" ∧
    (∀ s : String,
      map_phase_from_status (some s) = "Succeeded" ↔
        (s ≠ "Unknown" ∧ pyStartsWith (pyLower (pyStrip s)) "completed" = true)) ∧
    (∀ s : String,
      map_phase_from_status (some s) = "Failed" ↔
        (pyStartsWith (pyLower (pyStrip s)) "completed" = false ∧
          (pyLower (pyStrip s) = "failed" ∨ pyLower (pyStrip s) = "killed"))) ∧
    (∀ s : String,
      map_phase_from_status (some s) = "Pending" ↔
        (s = "" ∨ s = "Unknown" ∨
          (pyStartsWith (pyLower (pyStrip s)) "completed" = false ∧
            ¬(pyLower (pyStrip s) = "failed" ∨ pyLower (pyStrip s) = "killed") ∧
            (pyLower (pyStrip s) = "waiting" ∨ pyLower (pyStrip s) = "pending")))) ∧
    (∀ s : String,
      map_phase_from_status (some s) = "Running" ↔
        (s ≠ "" ∧ s ≠ "Unknown" ∧
          pyStartsWith (pyLower (pyStrip s)) "completed" = false ∧
          ¬(pyLower (pyStrip s) = "failed" ∨ pyLower (pyStrip s) = "killed") ∧
          ¬(pyLower (pyStrip s) = "waiting" ∨ pyLower (pyStrip s) = "pending"))) ∧
    (∀ c : CommvaultJobStatus,
      pollPhase c = map_phase_from_status (some c.raw) ∧
      admission_initial_phase c = pollPhase c) ∧
    (map_phase_from_status (some "Completed w/ errors") = "Succeeded" ∧
      map_phase_from_status (some " FAILED ") = "Failed" ∧
      map_phase_from_status (some "Killed") = "Failed" ∧
      map_phase_from_status (some "Waiting") = "Pending" ∧
      map_phase_from_status (some "Suspended") = "Running") := by
  refine ⟨by decide, by decide, by decide, ?_, ?_, ?_, ?_, ?_, ?_⟩
  · intro s
    by_cases h0 : s = ""
    · subst h0; simp [map_phase_from_status]; try decide
    · by_cases h1 : s = "Unknown"
      · subst h1; simp [map_phase_from_status]; try decide
      · simp only [map_phase_from_status, h0, h1, if_false, ite_false]
        split_ifs with hc hf hw <;> simp_all
  · intro s
    by_cases h0 : s = ""
    · subst h0; simp [map_phase_from_status]; try decide
    · by_cases h1 : s = "Unknown"
      · subst h1; simp [map_phase_from_status]; try decide
      · simp only [map_phase_from_status, h0, h1, if_false, ite_false]
        split_ifs with hc hf hw <;> simp_all
  · intro s
    by_cases h0 : s = ""
    · subst h0; simp [map_phase_from_status]; try decide
    · by_cases h1 : s = "Unknown"
      · subst h1; simp [map_phase_from_status]; try decide
      · simp only [map_phase_from_status, h0, h1, if_false, ite_false]
        split_ifs with hc hf hw <;> simp_all
  · intro s
    by_cases h0 : s = ""
    · subst h0; simp [map_phase_from_status]; try decide
    · by_cases h1 : s = "Unknown"
      · subst h1; simp [map_phase_from_status]; try decide
      · simp only [map_phase_from_status, h0, h1, if_false, ite_false]
        split_ifs with hc hf hw <;> simp_all
  · intro c; exact ⟨rfl, rfl⟩
  · refine ⟨by decide, by decide, by decide, by decide, by decide⟩

/-- C10: success implies terminal; success is characterized by the
case-insensitive prefix `completed`; terminality adds only the exact
case-sensitive strings `Failed` and `Killed`; hence the lowercase
`"failed"` maps to phase `Failed` yet is not terminal, while the exact
`"Failed"` is. -/
theorem c10_status_terminality :
    (∀ s : String, (CommvaultJobStatus.ofRaw (some s)).is_success = true →
        (CommvaultJobStatus.ofRaw (some s)).is_terminal = true) ∧
    (∀ s : String,
      (CommvaultJobStatus.ofRaw (some s)).is_success = pyStartsWith (pyLower s) "completed") ∧
    (∀ s : String,
      (CommvaultJobStatus.ofRaw (some s)).is_terminal =
        (pyStartsWith (pyLower s) "completed" || (s == "Failed" || s == "Killed"))) ∧
    (map_phase_from_status (some "failed") = "Failed" ∧
      (CommvaultJobStatus.ofRaw (some "failed")).is_terminal = false ∧
      (CommvaultJobStatus.ofRaw (some "FAILED")).is_terminal = false ∧
      (CommvaultJobStatus.ofRaw (some "Failed")).is_terminal = true) := by
  refine ⟨?_, ?_, ?_, by decide, by decide, by decide, by decide⟩
  · intro s h
    simp only [CommvaultJobStatus.is_terminal, CommvaultJobStatus.is_success] at h ⊢
    simp [h]
  · intro s
    by_cases h : s = ""
    · subst h; decide
    · simp [CommvaultJobStatus.ofRaw, CommvaultJobStatus.is_success,
        CommvaultJobStatus.lower, h]
  · intro s
    by_cases h : s = ""
    · subst h; decide
    · simp [CommvaultJobStatus.ofRaw, CommvaultJobStatus.is_terminal,
        CommvaultJobStatus.lower, h]

/-- C10 witness: `is_success` at `"Completed w/ errors"` discharges the
implication hypothesis, giving terminality. -/
theorem c10_status_terminality_witness :
    (CommvaultJobStatus.ofRaw (some "Completed w/ errors")).is_terminal = true :=
  c10_status_terminality.1 "Completed w/ errors" (by decide)

/-- C8: two successive merge-patches with disjoint field sets yield the
union of both patches over the prior status — each field keeps the value
from the patch that set it, fields named in neither patch keep their prior
value, and the two patches commute; `patch_status` never overwrites the
status wholesale. -/
theorem c8_merge_patch_union (st : String → Option String)
    (fs1 fs2 : List (String × String))
    (hdisj : ∀ p ∈ fs1, ∀ q ∈ fs2, p.1 ≠ q.1) :
    (∀ k v, lookupField k fs2 = some v →
      patch_status (patch_status st fs1) fs2 k = some v) ∧
    (∀ k v, lookupField k fs1 = some v →
      patch_status (patch_status st fs1) fs2 k = some v) ∧
    (∀ k, lookupField k fs1 = none → lookupField k fs2 = none →
      patch_status (patch_status st fs1) fs2 k = st k) ∧
    patch_status (patch_status st fs1) fs2 = patch_status (patch_status st fs2) fs1 := by
  refine ⟨?_, ?_, ?_, ?_⟩
  · intro k v h
    simp [patch_status, h]
  · intro k v h
    have hm : (k, v) ∈ fs1 := lookupField_mem h
    have h2 : lookupField k fs2 = none :=
      lookupField_eq_none (fun q hq => (hdisj (k, v) hm q hq).symm)
    simp [patch_status, h, h2]
  · intro k h1 h2
    simp [patch_status, h1, h2]
  · funext k
    rcases h1 : lookupField k fs1 with _ | v1 <;> rcases h2 : lookupField k fs2 with _ | v2
    · simp [patch_status, h1, h2]
    · simp [patch_status, h1, h2]
    · simp [patch_status, h1, h2]
    · exact absurd rfl (hdisj (k, v1) (lookupField_mem h1) (k, v2) (lookupField_mem h2))

/-- C8 witness: after patching `{phase, jobId}` then `{finishedAt}` on an
empty status, all three fields hold the value of the patch that set them
and an unnamed field is untouched. -/
theorem c8_merge_patch_union_witness :
    patch_status (patch_status stEmpty c8patch1) c8patch2 "phase" = some "Running" ∧
    patch_status (patch_status stEmpty c8patch1) c8patch2 "finishedAt" =
      some "2024-01-01T00:00:00Z" ∧
    patch_status (patch_status stEmpty c8patch1) c8patch2 "reason" = stEmpty "reason" := by
  have h := c8_merge_patch_union stEmpty c8patch1 c8patch2 (by decide)
  exact ⟨h.2.1 "phase" "Running" rfl, h.1 "finishedAt" "2024-01-01T00:00:00Z" rfl,
    h.2.2.1 "reason" rfl rfl⟩

/-- A qualifying Operation in the listed items makes the guard report a
conflict. -/
theorem findConflict_true {cn : Option String} {cur : String} {A : CRItem}
    {items : List CRItem} (hmem : A ∈ items) (hname : A.name ≠ cur)
    (hdel : A.deletionTs = none) (hclu : A.cluster = cn)
    (hph : terminal_phase A.phase = false) :
    (findConflict cn cur items).1 = true := by
  induction items with
  | nil => cases hmem
  | cons it rest ih =>
    rcases List.mem_cons.mp hmem with h | h
    · subst h
      simp [findConflict, hname, hdel, hclu, hph]
    · have hr := ih h
      unfold findConflict
      split_ifs <;> first | exact hr | rfl

/-- C1: with a pre-existing Operation `A` on the same cluster that is
neither terminal nor deleting, the admitting Operation detects the
conflict, is patched to `Rejected`/`ConcurrentOperation` and then deleted;
every guard action targets only the admitting CR, so `A` is untouched;
when `A` itself admitted alone it proceeded (exactly one of the two
proceeds); and a listing failure degrades to no conflict, so admission
proceeds. -/
theorem c1_concurrency_guard_exclusivity (items : List CRItem) (A : CRItem)
    (cn : Option String) (cur : String)
    (hmem : A ∈ items) (hname : A.name ≠ cur) (hdel : A.deletionTs = none)
    (hclu : A.cluster = cn) (hph : terminal_phase A.phase = false) :
    (another_operation_in_progress (Except.ok items) cn cur).1 = true ∧
    run_guard (Except.ok items) cn cur =
      [K8sAction.patchStatusOf cur [("phase", "Rejected"), ("reason", "ConcurrentOperation")],
        K8sAction.deleteCROf cur] ∧
    (∀ a ∈ run_guard (Except.ok items) cn cur, a.target = cur) ∧
    (∀ a ∈ run_guard (Except.ok items) cn cur, a.target ≠ A.name) ∧
    run_guard (Except.ok [A]) A.cluster A.name = [K8sAction.proceedWith A.name] ∧
    run_guard (Except.error ()) cn cur = [K8sAction.proceedWith cur] := by
  have hc : (findConflict cn cur items).1 = true := findConflict_true hmem hname hdel hclu hph
  rcases hfc : findConflict cn cur items with ⟨b, o⟩
  rw [hfc] at hc
  subst hc
  have hrun : run_guard (Except.ok items) cn cur =
      [K8sAction.patchStatusOf cur [("phase", "Rejected"), ("reason", "ConcurrentOperation")],
        K8sAction.deleteCROf cur] := by
    simp [run_guard, another_operation_in_progress, hfc]
  refine ⟨by simp [another_operation_in_progress, hfc], hrun, ?_, ?_, ?_, rfl⟩
  · intro a ha
    rw [hrun] at ha
    rcases List.mem_cons.mp ha with h | h
    · subst h; rfl
    · rcases List.mem_cons.mp h with h2 | h2
      · subst h2; rfl
      · cases h2
  · intro a ha
    rw [hrun] at ha
    rcases List.mem_cons.mp ha with h | h
    · subst h; exact fun he => hname he.symm
    · rcases List.mem_cons.mp h with h2 | h2
      · subst h2; exact fun he => hname he.symm
      · cases h2
  · simp [run_guard, another_operation_in_progress, findConflict]

/-- C1 witness: the second create for cluster `pg1` is rejected and
deleted while `op-a` is untouched; `op-a` alone proceeded; a listing
failure lets admission proceed. -/
theorem c1_concurrency_guard_exclusivity_witness :
    run_guard (Except.ok [crA]) (some "pg1") "op-b" =
      [K8sAction.patchStatusOf "op-b" [("phase", "Rejected"), ("reason", "ConcurrentOperation")],
        K8sAction.deleteCROf "op-b"] ∧
    run_guard (Except.ok [crA]) crA.cluster crA.name = [K8sAction.proceedWith crA.name] ∧
    run_guard (Except.error ()) (some "pg1") "op-b" = [K8sAction.proceedWith "op-b"] := by
  have h := c1_concurrency_guard_exclusivity [crA] crA (some "pg1") "op-b"
    (by decide) (by decide) (by decide) (by decide) (by decide)
  exact ⟨h.2.1, h.2.2.2.2.1, h.2.2.2.2.2⟩

/-- A nonempty poll sequence has a nonempty observed prefix. -/
theorem processedPolls_ne_nil {seq : List CommvaultJobStatus} (h : seq ≠ []) :
    processedPolls seq ≠ [] := by
  cases seq with
  | nil => exact absurd rfl h
  | cons c rest =>
    by_cases hterm : c.is_terminal
    · simp [processedPolls, hterm]
    · simp [processedPolls, hterm]

/-- The last observed status ignores a non-terminal head when more polls
follow. -/
theorem lastObserved_cons {c : CommvaultJobStatus} {rest : List CommvaultJobStatus}
    (hterm : c.is_terminal = false) (hrest : rest ≠ []) :
    lastObserved (c :: rest) = lastObserved rest := by
  unfold lastObserved
  have h1 : processedPolls (c :: rest) = c :: processedPolls rest := by
    simp [processedPolls, hterm]
  rw [h1]
  rcases hP : processedPolls rest with _ | ⟨x, xs⟩
  · exact absurd hP (processedPolls_ne_nil hrest)
  · rw [List.getLast?_cons_cons]

/-- The loop equals its specification: the change patches are exactly the
change points of the observed prefix and the final status is the last
observed status. -/
theorem pollSteps_spec (seq : List CommvaultJobStatus) :
    ∀ last : Option String, seq ≠ [] →
      pollSteps last seq =
        (changePatchList last (processedPolls seq), some (lastObserved seq)) := by
  induction seq with
  | nil => intro last h; exact absurd rfl h
  | cons c rest ih =>
    intro last _
    by_cases hterm : c.is_terminal
    · by_cases heq : last = some c.raw
      · simp [pollSteps, processedPolls, changePatchList, lastObserved, hterm, heq]
      · simp [pollSteps, processedPolls, changePatchList, lastObserved, hterm, heq]
    · by_cases hrest : rest = []
      · subst hrest
        by_cases heq : last = some c.raw
        · simp [pollSteps, processedPolls, changePatchList, lastObserved, hterm, heq]
        · simp [pollSteps, processedPolls, changePatchList, lastObserved, hterm, heq]
      · have hih := ih (some c.raw) hrest
        have hlast := lastObserved_cons (by simpa using hterm) hrest
        by_cases heq : last = some c.raw
        · subst heq
          simp [pollSteps, processedPolls, changePatchList, hterm, hih, hlast]
        · simp [pollSteps, processedPolls, changePatchList, hterm, hih, hlast, heq]

/-- C3: for every nonempty finite poll sequence, the monitoring loop
persists one `(commvaultStatus, phase)` patch exactly at each observed
status change, stops at the first terminal status, then persists the final
`{phase, commvaultStatus, finishedAt}` patch exactly once, and deletes the
Operation iff the final status is a success. -/
theorem c3_poll_loop_behavior (initial : Option String)
    (seq : List CommvaultJobStatus) (h : seq ≠ []) :
    wait_and_cleanup initial seq =
      some ⟨changePatchList initial (processedPolls seq),
        if (lastObserved seq).is_success then "Succeeded" else "Failed",
        (lastObserved seq).raw, (lastObserved seq).is_success⟩ := by
  unfold wait_and_cleanup
  rw [pollSteps_spec seq initial h]

/-- C3 witness: `["Running", "Running", "Completed w/ errors"]` from an
initial `"Pending"` yields two change patches, final phase `Succeeded`
and deletion; `["Failed"]` yields one change patch, final phase `Failed`
and no deletion. -/
theorem c3_poll_loop_behavior_witness :
    wait_and_cleanup (some "Pending") seqScenarioA =
      some ⟨[("Running", "Running"), ("Completed w/ errors", "Succeeded")],
        "Succeeded", "Completed w/ errors", true⟩ ∧
    wait_and_cleanup (some "Pending") seqScenarioB =
      some ⟨[("Failed", "Failed")], "Failed", "Failed", false⟩ := by
  constructor
  · exact (c3_poll_loop_behavior (some "Pending") seqScenarioA (by decide)).trans (by decide)
  · exact (c3_poll_loop_behavior (some "Pending") seqScenarioB (by decide)).trans (by decide)

/-- If the stop signal is set at interval `k` and the budget covers `k`,
the loop exits (by cancellation or terminal break) at an iteration no
later than `k`. -/
theorem loopWithStop_exit_le (stopped : Nat → Bool) (seq : Nat → CommvaultJobStatus)
    (k : Nat) (hk : stopped k = true) :
    ∀ (fuel i : Nat) (last : Option String), i ≤ k → k < i + fuel →
      ∃ j, j ≤ k ∧
        ((loopWithStop stopped seq fuel i last).2 = LoopExit.cancelled j ∨
          (loopWithStop stopped seq fuel i last).2 = LoopExit.terminal j) := by
  intro fuel
  induction fuel with
  | zero => intro i last hik hk2; omega
  | succ n ih =>
    intro i last hik hk2
    by_cases hs : stopped i = true
    · exact ⟨i, hik, Or.inl (by simp [loopWithStop, hs])⟩
    · have hs2 : stopped i = false := by simpa using hs
      have hik2 : i < k := by
        rcases Nat.lt_or_ge i k with h | h
        · exact h
        · have : i = k := Nat.le_antisymm hik h
          subst this
          rw [hk] at hs2
          cases hs2
      by_cases ht : (seq i).is_terminal
      · exact ⟨i, hik, Or.inr (by simp [loopWithStop, hs2, ht])⟩
      · obtain ⟨j, hj, hor⟩ := ih (i + 1) (some (seq i).raw) (by omega) (by omega)
        refine ⟨j, hj, ?_⟩
        simpa [loopWithStop, hs2, ht] using hor

/-- Whatever the stop signal, the patches written before the loop exits
form a prefix of the patches of the stop-free run: cancellation never
writes anything beyond what the normal run would have persisted. -/
theorem loopWithStop_patches_agree (stopped : Nat → Bool)
    (seq : Nat → CommvaultJobStatus) :
    ∀ (fuel i : Nat) (last : Option String),
      ∃ t, (loopWithStop stopped seq fuel i last).1 ++ t =
        (loopWithStop noStop seq fuel i last).1 := by
  intro fuel
  induction fuel with
  | zero => intro i last; exact ⟨[], rfl⟩
  | succ n ih =>
    intro i last
    by_cases hs : stopped i = true
    · refine ⟨(loopWithStop noStop seq (n + 1) i last).1, ?_⟩
      simp [loopWithStop, hs]
    · have hs2 : stopped i = false := by simpa using hs
      by_cases ht : (seq i).is_terminal
      · exact ⟨[], by simp [loopWithStop, hs2, ht, noStop]⟩
      · obtain ⟨t, htl⟩ := ih (i + 1) (some (seq i).raw)
        refine ⟨t, ?_⟩
        simp only [loopWithStop, hs2, ht, noStop, if_false, Bool.false_eq_true]
        rw [List.append_assoc, htl]

/-- C6: the stop signal is evaluated at the head of every iteration —
before that iteration's poll and before its sleep — so a stop set at
interval `k` makes the loop exit by iteration `k`, i.e. within one poll
interval of the request; the exit path returns immediately, so the
patches already persisted are exactly a prefix of the stop-free run's
patches and the cancelled run never reaches the final status patch:
nothing of the last-persisted status is lost or overwritten. -/
theorem c6_cancellation_prompt_exit (stopped : Nat → Bool)
    (seq : Nat → CommvaultJobStatus) (last : Option String) (k fuel : Nat)
    (hk : stopped k = true) (hfuel : k < fuel) :
    (∃ j, j ≤ k ∧
      ((loopWithStop stopped seq fuel 0 last).2 = LoopExit.cancelled j ∨
        (loopWithStop stopped seq fuel 0 last).2 = LoopExit.terminal j)) ∧
    (∃ t, (loopWithStop stopped seq fuel 0 last).1 ++ t =
      (loopWithStop noStop seq fuel 0 last).1) ∧
    (loopWithStop stopped seq fuel 0 last).2 ≠ LoopExit.timeout := by
  have h1 := loopWithStop_exit_le stopped seq k hk fuel 0 last (Nat.zero_le k) (by omega)
  refine ⟨h1, loopWithStop_patches_agree stopped seq fuel 0 last, ?_⟩
  obtain ⟨j, _, hor⟩ := h1
  rcases hor with h | h <;> rw [h] <;> simp

/-- C6 witness: a stop raised from interval 3 on, against a constant
`"Running"` stream with a budget of 10 polls, exits by iteration 3 with a
patch prefix of the stop-free run. -/
theorem c6_cancellation_prompt_exit_witness :
    (∃ j, j ≤ 3 ∧
      ((loopWithStop stopAt3 seqRunning 10 0 (some "Pending")).2 = LoopExit.cancelled j ∨
        (loopWithStop stopAt3 seqRunning 10 0 (some "Pending")).2 = LoopExit.terminal j)) ∧
    (∃ t, (loopWithStop stopAt3 seqRunning 10 0 (some "Pending")).1 ++ t =
      (loopWithStop noStop seqRunning 10 0 (some "Pending")).1) ∧
    (loopWithStop stopAt3 seqRunning 10 0 (some "Pending")).2 ≠ LoopExit.timeout :=
  c6_cancellation_prompt_exit stopAt3 seqRunning (some "Pending") 3 10 (by decide) (by decide)

/-- A task-start event never appears in the provisioning trace, so it can
only come from the post-`execute` branch of `run`. -/
theorem startTask_mem_run {e : ZEnv} (h : ZEvent.startRestoreTask ∈ zalandoInPlaceRun e) :
    (zalandoInPlaceExecute e).2 = true := by
  unfold zalandoInPlaceRun at h
  rcases List.mem_append.mp h with h2 | h2
  · rcases List.mem_map.mp h2 with ⟨s, _, hs⟩
    cases hs
  · by_cases hb : (zalandoInPlaceExecute e).2 = true
    · exact hb
    · rw [Bool.not_eq_true] at hb
      rw [hb] at h2
      simp at h2

/-- `execute()` completes successfully only when the re-verification
found the StatefulSet gone, or found it at 0 replicas and saw its pods
gone. -/
theorem executeOk_reverified {e : ZEnv} (h : (zalandoInPlaceExecute e).2 = true) :
    e.reverifySts = StsRead.notFound ∨
      (e.reverifySts = StsRead.found 0 ∧ e.podsGone2Ok = true) := by
  unfold zalandoInPlaceExecute at h
  repeat' split at h
  all_goals simp_all

/-- C4: in a zalando in-place restore whose collaborator calls all
succeed, the execution trace is exactly: resolve names, read the source
volume, record the original replica count, quiesce the live cluster to 0
replicas and wait for its pods to be gone, delete all numbered volumes,
wait for the target volume name's full absence, recreate it empty, start
the helper workload, re-verify 0 replicas and no live pods — and only
then is the restore task requested; moreover in every environment a task
request implies `execute()` completed and the re-verification succeeded
(StatefulSet gone, or at 0 replicas with pods gone). -/
theorem c4_inplace_restore_ordering (e : ZEnv)
    (h1 : e.pvcNameOk = true) (h2 : e.readSrcOk = true) (h3 : e.scaleOk = true)
    (h4 : e.deletePvcsOk = true) (h5 : e.pvcAbsentOk = true)
    (h6 : e.createPvcRes = CreateRes.ok) (h7 : e.createStsRes = CreateRes.ok)
    (h8 : e.reverifySts = StsRead.found 0) (h9 : e.podsGone2Ok = true) :
    zalandoInPlaceRun e =
      [ZEvent.step ZStep.getPvcName, ZEvent.step ZStep.readSourcePvc,
        ZEvent.step (ZStep.patchOriginalReplicas e.origReplicas),
        ZEvent.step (ZStep.scaleClusterReplicas 0), ZEvent.step ZStep.waitClusterPodsGone,
        ZEvent.step ZStep.deleteNumberedPvcs, ZEvent.step ZStep.waitPvcAbsent,
        ZEvent.step ZStep.createPvc, ZEvent.step ZStep.determinePostgresParams,
        ZEvent.step ZStep.createHelperSts, ZEvent.step ZStep.readStsReplicas,
        ZEvent.step ZStep.reverifyPodsGone, ZEvent.startRestoreTask] ∧
    (∀ f : ZEnv, ZEvent.startRestoreTask ∈ zalandoInPlaceRun f →
      (zalandoInPlaceExecute f).2 = true ∧
        (f.reverifySts = StsRead.notFound ∨
          (f.reverifySts = StsRead.found 0 ∧ f.podsGone2Ok = true))) := by
  constructor
  · simp [zalandoInPlaceRun, zalandoInPlaceExecute, h1, h2, h3, h4, h5, h6, h7, h8, h9]
  · intro f hf
    have hok := startTask_mem_run hf
    exact ⟨hok, executeOk_reverified hok⟩

/-- C4 witness: the all-successful environment with 3 original replicas
produces the full ordered trace ending in the task request. -/
theorem c4_inplace_restore_ordering_witness :
    zalandoInPlaceRun zenvOk =
      [ZEvent.step ZStep.getPvcName, ZEvent.step ZStep.readSourcePvc,
        ZEvent.step (ZStep.patchOriginalReplicas 3),
        ZEvent.step (ZStep.scaleClusterReplicas 0), ZEvent.step ZStep.waitClusterPodsGone,
        ZEvent.step ZStep.deleteNumberedPvcs, ZEvent.step ZStep.waitPvcAbsent,
        ZEvent.step ZStep.createPvc, ZEvent.step ZStep.determinePostgresParams,
        ZEvent.step ZStep.createHelperSts, ZEvent.step ZStep.readStsReplicas,
        ZEvent.step ZStep.reverifyPodsGone, ZEvent.startRestoreTask] :=
  (c4_inplace_restore_ordering zenvOk rfl rfl rfl rfl rfl rfl rfl rfl rfl).1

/-- C9 counterexample: in the restore strategy an HTTP 409 `already
exists` on the target-volume creation is NOT treated as success — it
raises a retryable `TemporaryError`, `execute()` fails, and no vendor
task is started; so re-running provisioning against an already-created
restore volume is not a no-op. -/
theorem c9_restore_conflict_counterexample :
    restore_target_pvc_create CreateRes.conflict = Except.error KopfSignal.temporaryErr ∧
    zenvConflict.createPvcRes = CreateRes.conflict ∧
    (zalandoInPlaceExecute zenvConflict).2 = false ∧
    ZEvent.startRestoreTask ∉ zalandoInPlaceRun zenvConflict := by
  refine ⟨rfl, rfl, by decide, by decide⟩

/-- C9 (amended): an `already exists` (409) on the backup strategy's
snapshot and clone-volume creation and on every helper-workload creation
is treated as success, so re-running those provisioning steps is a
no-op; the restore strategies' target-volume creation instead turns a 409
into a retryable `TemporaryError` (it follows a wait-for-absence, so a
conflict means the old volume is still terminating); `execute()` must
complete before the vendor task, whose start returns a job id or raises a
typed `CommvaultApiException`, never silently swallowed. -/
theorem c9_idempotency_amended :
    (backup_snapshot_create CreateRes.conflict = Except.ok () ∧
      backup_clone_pvc_create CreateRes.conflict = Except.ok () ∧
      helper_statefulset_create CreateRes.conflict = Except.ok ()) ∧
    restore_target_pvc_create CreateRes.conflict = Except.error KopfSignal.temporaryErr ∧
    (∀ f : ZEnv, ZEvent.startRestoreTask ∈ zalandoInPlaceRun f →
      (zalandoInPlaceExecute f).2 = true) ∧
    (∀ j : String, create_task_model true (some j) = Except.ok j) ∧
    create_task_model true none = Except.error CvFail.emptyResponse ∧
    (∀ jr : Option String, create_task_model false jr =
      Except.error CvFail.subclientMissing) := by
  refine ⟨⟨rfl, rfl, rfl⟩, rfl, ?_, ?_, rfl, ?_⟩
  · intro f hf
    exact startTask_mem_run hf
  · intro j
    rfl
  · intro jr
    rfl

/-- C9 witness: the all-successful run starts its task only with a
completed `execute()`, and a conflict on the backup snapshot is a
success. -/
theorem c9_idempotency_amended_witness :
    (zalandoInPlaceExecute zenvOk).2 = true ∧
    backup_snapshot_create CreateRes.conflict = Except.ok () := by
  constructor
  · exact c9_idempotency_amended.2.2.1 zenvOk (by decide)
  · exact c9_idempotency_amended.1.1

/-- Appending a nonempty middle segment changes a string. -/
theorem string_append_ne (a b c : String) (hb : b.data ≠ []) :
    ¬(a ++ b ++ c = a) := by
  intro he
  have hlen := congrArg String.length he
  rw [String.length_append, String.length_append] at hlen
  have hb3 : 0 < b.data.length := List.length_pos.mpr hb
  have hlb : b.length = b.data.length := rfl
  omega

/-- C7: the finalization body runs only when the job succeeded for a
zalando in-place restore; `finalize` never writes the Operation status
(so the already-persisted job outcome is untouched) and, being a total
function whose collaborator failures are absorbed, never raises; the
recorded replica count is parsed defensively and clamped to a minimum of
1; and with originalReplicas 3 on success the helper workload is scaled
to 0 and its pods awaited gone before the real cluster is started, which
ends at 3 replicas. -/
theorem c7_finalize_guard_and_replicas :
    (∀ (su : Bool) (opr : String) (ip : Bool) (raw : Option PyVal) (env : FEnv),
      (su && ((opr == "zalando") && ip)) = false → finalize su opr ip raw env = []) ∧
    (∀ (su : Bool) (opr : String) (ip : Bool) (raw : Option PyVal) (env : FEnv),
      FEvent.patchStatusF ∉ finalize su opr ip raw env) ∧
    (∀ raw : Option PyVal, 1 ≤ desired_replicas raw) ∧
    (desired_replicas (some (PyVal.vstr "3")) = 3 ∧
      desired_replicas (some (PyVal.vstr "oops")) = 1 ∧
      desired_replicas (some (PyVal.vint 0)) = 1 ∧
      desired_replicas (some (PyVal.vint (-5))) = 1 ∧
      desired_replicas none = 1) ∧
    finalize true "zalando" true (some (PyVal.vint 3)) fenvOk =
      [FEvent.scaleHelperSts 0, FEvent.waitHelperPodsGone, FEvent.scaleCluster 1,
        FEvent.waitPodReady, FEvent.patronictlRemove, FEvent.scaleCluster 3] := by
  refine ⟨?_, ?_, ?_, ⟨by decide, by decide, by decide, by decide, by decide⟩, by decide⟩
  · intro su opr ip raw env h
    simp [finalize, h]
  · intro su opr ip raw env
    unfold finalize
    repeat' split
    all_goals by_cases hd : 1 < desired_replicas raw <;> simp [hd]
  · intro raw
    unfold desired_replicas
    by_cases h : desired_replicas_parsed raw < 1
    · simp [h]
    · simp only [h, if_false]
      omega

/-- C7 witness: a failed job yields no finalization steps, and the
defensive parse still clamps to at least 1. -/
theorem c7_finalize_guard_and_replicas_witness :
    finalize false "zalando" true (some (PyVal.vint 3)) fenvOk = [] ∧
    1 ≤ desired_replicas (some (PyVal.vstr "oops")) := by
  constructor
  · exact c7_finalize_guard_and_replicas.1 false "zalando" true (some (PyVal.vint 3)) fenvOk rfl
  · exact c7_finalize_guard_and_replicas.2.2.1 (some (PyVal.vstr "oops"))

/-- C5 counterexample: a CNPG Operation with `restore_mode: in-place` is
constructible and dispatches to `CNPGRestore`, whose inherited
target-volume rule returns the ORIGINAL source volume name `pgdata-c1-1`
— not a freshly derived disposable name. -/
theorem c5_cnpg_inplace_counterexample :
    c5_target = Except.ok "pgdata-c1-1" ∧
    (mkOperation "op1" "ns1" c5spec).map Operation.operator = Except.ok "cnpg" ∧
    (mkOperation "op1" "ns1" c5spec).map Operation.is_restore_in_place =
      Except.ok true := by
  refine ⟨rfl, rfl, rfl⟩

/-- C5 (amended): for a CNPG Operation the target volume name is freshly
derived and distinct from the source volume's name whenever the Operation
is NOT an in-place restore (backups and out-of-place restores); a CNPG
in-place restore instead inherits the generic restore path and targets
exactly the original volume name. -/
theorem c5_cnpg_target_name_amended (op : Operation) (k : StrategyKind)
    (pvc cid : String)
    (hk : get_strategy op = Except.ok k) (hc : op.operator = "cnpg") :
    (op.is_restore_in_place = false →
      ¬(strategy_target_pvc_name op k pvc cid = pvc)) ∧
    (op.is_restore_in_place = true →
      strategy_target_pvc_name op k pvc cid = pvc) := by
  simp only [get_strategy, hc] at hk
  by_cases ha : (op.action == "restore") = true
  · simp only [ha, if_true, reduceCtorEq, ite_false, reduceIte] at hk
    have hkk : k = StrategyKind.cnpgRestore := by
      cases hk
      rfl
    subst hkk
    constructor
    · intro hip
      simp only [strategy_target_pvc_name, restore_target_pvc_name, hip,
        Bool.false_eq_true, if_false]
      exact string_append_ne pvc "-restore-" cid (by decide)
    · intro hip
      simp [strategy_target_pvc_name, restore_target_pvc_name, hip]
  · simp only [ha, Bool.false_eq_true, if_false, reduceCtorEq, ite_false, reduceIte] at hk
    have hkk : k = StrategyKind.cnpgBackup := by
      cases hk
      rfl
    subst hkk
    constructor
    · intro _
      exact string_append_ne pvc "-clone-" cid (by decide)
    · intro hip
      simp only [Operation.is_restore_in_place, Bool.and_eq_true] at hip
      exact absurd hip.1 ha

/-- C5 witness: the concrete CNPG out-of-place restore gets a target name
different from its source volume name. -/
theorem c5_cnpg_target_name_amended_witness :
    ¬(strategy_target_pvc_name c5op StrategyKind.cnpgRestore
        "pgdata-c1-1" "20250101120000" = "pgdata-c1-1") :=
  (c5_cnpg_target_name_amended c5op StrategyKind.cnpgRestore
    "pgdata-c1-1" "20250101120000" rfl rfl).1 rfl
